import Mathlib

/-!
Verification of the Thingpilot NB-IoT interface (`tp_nbiot_interface.h`).

The repository ships the interface header only: the enumerations (with the
3-bit unit codes documented next to each member), the public result codes
and the operation declarations.  The operation bodies are not part of the
sources, so each behavioural definition below is modelled from the spec and
says so in its doc comment; the enumerations, their unit-code tables and
the numeric result codes are taken directly from the header.
-/

/-- Possible `_driver` values (header enum, lines 41-45). -/
def UNDEFINED : Nat := 0

/-- Possible `_driver` values (header enum, lines 41-45). -/
def SARAN2 : Nat := 1

/-- Function return codes (header enum, lines 49-55). -/
def NBIOT_OK : Int := 0

/-- Function return codes (header enum, lines 49-55). -/
def DRIVER_UNKNOWN : Int := 60

/-- Function return codes (header enum, lines 49-55). -/
def EXCEEDS_MAX_VALUE : Int := 61

/-- Function return codes (header enum, lines 49-55). -/
def INVALID_UNIT_VALUE : Int := 62

/-- Modelled from the spec: the generic `ERROR` result for malformed or
unexpected channel replies.  The header enum does not list it; the spec only
requires it to be distinct from the stable codes, so it is modelled as a
value outside the enum. -/
def ERROR : Int := -1

/-- List of possible T3412 timer units (header enum class, lines 59-70). -/
inductive T3412_units
  | HR_320
  | HR_10
  | HR_1
  | MIN_10
  | MIN_1
  | SEC_30
  | SEC_2
  | DEACT
  | INVALID
  deriving DecidableEq, Repr

/-- List of possible T3324 timer units (header enum class, lines 74-81). -/
inductive T3324_units
  | MIN_6
  | MIN_1
  | SEC_2
  | DEACT
  | INVALID
  deriving DecidableEq, Repr

/-- 3-bit unit code of each T3412 unit, as documented in the header comments
(`HR_320 // 1 1 0`, ..., `DEACT // 1 1 1`); `INVALID` has no wire form. -/
def T3412_units.code : T3412_units → Option Nat
  | .HR_320 => some 6
  | .HR_10 => some 2
  | .HR_1 => some 1
  | .MIN_10 => some 0
  | .MIN_1 => some 5
  | .SEC_30 => some 4
  | .SEC_2 => some 3
  | .DEACT => some 7
  | .INVALID => none

/-- 3-bit unit code of each T3324 unit, as documented in the header comments
(`MIN_6 // 0 1 0`, ..., `DEACT // 1 1 1`); `INVALID` has no wire form. -/
def T3324_units.code : T3324_units → Option Nat
  | .MIN_6 => some 2
  | .MIN_1 => some 1
  | .SEC_2 => some 0
  | .DEACT => some 7
  | .INVALID => none

/-- Inverse of the T3412 unit-code table: all eight 3-bit codes are
assigned, so no code maps to `INVALID`. -/
def T3412_units.ofCode : Nat → T3412_units
  | 0 => .MIN_10
  | 1 => .HR_1
  | 2 => .HR_10
  | 3 => .SEC_2
  | 4 => .SEC_30
  | 5 => .MIN_1
  | 6 => .HR_320
  | 7 => .DEACT
  | _ => .INVALID

/-- Inverse of the T3324 unit-code table: only four of the eight 3-bit
codes are assigned; the other four map to `INVALID`. -/
def T3324_units.ofCode : Nat → T3324_units
  | 0 => .SEC_2
  | 1 => .MIN_1
  | 2 => .MIN_6
  | 7 => .DEACT
  | _ => .INVALID

/-- Render `n` as a `width`-character string of `'0'`/`'1'`, most
significant bit first (the rendering `dec_to_bin_5_bit` performs for the
5-bit multiples, generalised to any width). -/
def toBin (width n : Nat) : String :=
  String.mk ((List.range width).map (fun i => if n / 2 ^ (width - 1 - i) % 2 = 1 then '1' else '0'))

/-- Parse a `'0'`/`'1'` string, most significant bit first, to a number. -/
def binToNat (s : String) : Nat :=
  s.data.foldl (fun acc c => acc * 2 + (if c = '1' then 1 else 0)) 0

/-- Modelled from the spec: `TimerCodec.encode` for the T3412 timer (the
body of the codec is absent from the sources).  Rejects a unit with no wire
form with `INVALID_UNIT_VALUE` and `multiples > 31` with
`EXCEEDS_MAX_VALUE`; otherwise composes the octet as the 3-bit unit code in
the high bits and the 5-bit multiples in the low bits. -/
def encodeT3412 (unit : T3412_units) (multiples : Nat) : Except Int Nat :=
  match unit.code with
  | none => .error INVALID_UNIT_VALUE
  | some c => if multiples > 31 then .error EXCEEDS_MAX_VALUE else .ok (c * 32 + multiples)

/-- Modelled from the spec: `TimerCodec.encode` for the T3324 timer;
same layout and error rules as `encodeT3412` over the T3324 table. -/
def encodeT3324 (unit : T3324_units) (multiples : Nat) : Except Int Nat :=
  match unit.code with
  | none => .error INVALID_UNIT_VALUE
  | some c => if multiples > 31 then .error EXCEEDS_MAX_VALUE else .ok (c * 32 + multiples)

/-- Modelled from the spec: the 8-character `'0'`/`'1'` rendering of an
encoded T3412 octet, most significant bit first. -/
def encodeT3412Bits (unit : T3412_units) (multiples : Nat) : Except Int String :=
  Except.map (toBin 8) (encodeT3412 unit multiples)

/-- Modelled from the spec: the 8-character `'0'`/`'1'` rendering of an
encoded T3324 octet, most significant bit first. -/
def encodeT3324Bits (unit : T3324_units) (multiples : Nat) : Except Int String :=
  Except.map (toBin 8) (encodeT3324 unit multiples)

/-- Modelled from the spec: `TimerCodec.decode` for the T3412 timer: split
the high 3 bits of the octet to a unit code and the low 5 bits to the
multiples; total, never fails. -/
def decodeT3412 (octet : Nat) : T3412_units × Nat :=
  (T3412_units.ofCode (octet / 32), octet % 32)

/-- Modelled from the spec: `TimerCodec.decode` for the T3324 timer. -/
def decodeT3324 (octet : Nat) : T3324_units × Nat :=
  (T3324_units.ofCode (octet / 32), octet % 32)

/-- Modelled from the spec: decoding directly from the 8-character binary
string the modem reports. -/
def decodeT3412String (s : String) : T3412_units × Nat :=
  decodeT3412 (binToNat s)

/-- Modelled from the spec: decoding directly from the 8-character binary
string the modem reports. -/
def decodeT3324String (s : String) : T3324_units × Nat :=
  decodeT3324 (binToNat s)

/-- Modelled from the spec: one command sent over the modem channel.  The
spec fixes only the shape of each command (which discrete fields it
carries), not the vendor AT text, so commands are modelled structurally;
an operation's channel interactions are the list of commands it sends. -/
inductive Cmd
  | rebootSeq
  | statusQuery
  | toggle (feature : String) (enabled : Bool)
  | psmTau (bits : String)
  | psmActive (bits : String)
  | psmTauQuery
  | psmActiveQuery
  | coapConfig (ipv4 : String) (port : Nat) (uri : String)
  | coapGet
  | coapDelete
  | coapPut (send_data : String) (content_format : Int)
  | coapPost (send_data : String) (content_format : Int)
  deriving DecidableEq, Repr

/-- Modelled from the spec: CoAP profile 0 (server address, port, URI);
exactly one profile is live at a time. -/
structure CoapProfile where
  server_ipv4 : String
  server_port : Nat
  uri : String
  deriving DecidableEq, Repr

/-- Modelled from the spec: at construction no CoAP profile is configured. -/
def initCoapProfile : Option CoapProfile := none

/-- Modelled from the spec: `set_tau_timer` calls `TimerCodec.encode` and
propagates its error without contacting the channel; on encode success it
transmits the 8-character bit string as the PSM-configuration command.
Returns (result, commands sent). -/
def set_tau_timer (unit : T3412_units) (multiples : Nat) : Int × List Cmd :=
  match encodeT3412 unit multiples with
  | .error e => (e, [])
  | .ok o => (NBIOT_OK, [Cmd.psmTau (toBin 8 o)])

/-- Modelled from the spec: `set_active_time`, symmetric to
`set_tau_timer` over the T3324 table. -/
def set_active_time (unit : T3324_units) (multiples : Nat) : Int × List Cmd :=
  match encodeT3324 unit multiples with
  | .error e => (e, [])
  | .ok o => (NBIOT_OK, [Cmd.psmActive (toBin 8 o)])

/-- Modelled from the spec: the `(unit, multiples)` overload of
`get_tau_timer`.  `reply` is the channel's answer to the timer query
(`none` models a channel failure).  On channel success the call decodes the
8-character bit string and returns `NBIOT_OK` even when decode yields
`INVALID`; on channel failure it returns `ERROR` and leaves the output
parameters `prev_unit`/`prev_multiples` unchanged.
Returns (result, unit, multiples, commands sent). -/
def get_tau_timer_units (reply : Option String) (prev_unit : T3412_units)
    (prev_multiples : Nat) : Int × T3412_units × Nat × List Cmd :=
  match reply with
  | none => (ERROR, prev_unit, prev_multiples, [Cmd.psmTauQuery])
  | some s => (NBIOT_OK, (decodeT3412String s).1, (decodeT3412String s).2, [Cmd.psmTauQuery])

/-- Modelled from the spec: the `(unit, multiples)` overload of
`get_active_time`, symmetric to `get_tau_timer_units`. -/
def get_active_time_units (reply : Option String) (prev_unit : T3324_units)
    (prev_multiples : Nat) : Int × T3324_units × Nat × List Cmd :=
  match reply with
  | none => (ERROR, prev_unit, prev_multiples, [Cmd.psmActiveQuery])
  | some s => (NBIOT_OK, (decodeT3324String s).1, (decodeT3324String s).2, [Cmd.psmActiveQuery])

/-- Modelled from the spec: `configure_coap` validates the URI length
locally, failing without a channel round-trip when it exceeds 200
characters; otherwise it programs CoAP profile 0, replacing any previous
profile.  Returns (result, new profile state, commands sent). -/
def configure_coap (ipv4 : String) (port : Nat) (uri : String)
    (profile : Option CoapProfile) : Int × Option CoapProfile × List Cmd :=
  if uri.length > 200 then (EXCEEDS_MAX_VALUE, profile, [])
  else (NBIOT_OK, some ⟨ipv4, port, uri⟩, [Cmd.coapConfig ipv4 port uri])

/-- Modelled from the spec: `coap_get`.  A CoAP exchange can only be
started once profile 0 is configured; without a profile the call returns
`ERROR` and sends nothing.  `reply` is the server response (body, CoAP
response code); `none` models a channel failure.  On success the response
body and code are stored in place of `prev_recv`/`prev_code`.
Returns (result, recv_data, response_code, commands sent). -/
def coap_get (profile : Option CoapProfile) (reply : Option (String × Int))
    (prev_recv : String) (prev_code : Int) : Int × String × Int × List Cmd :=
  match profile with
  | none => (ERROR, prev_recv, prev_code, [])
  | some _ =>
    match reply with
    | none => (ERROR, prev_recv, prev_code, [Cmd.coapGet])
    | some (body, code) => (NBIOT_OK, body, code, [Cmd.coapGet])

/-- Modelled from the spec: `coap_delete`, same profile guard as
`coap_get`. -/
def coap_delete (profile : Option CoapProfile) (reply : Option (String × Int))
    (prev_recv : String) (prev_code : Int) : Int × String × Int × List Cmd :=
  match profile with
  | none => (ERROR, prev_recv, prev_code, [])
  | some _ =>
    match reply with
    | none => (ERROR, prev_recv, prev_code, [Cmd.coapDelete])
    | some (body, code) => (NBIOT_OK, body, code, [Cmd.coapDelete])

/-- Modelled from the spec: `coap_put`, transmitting `send_data` tagged
with a content-format identifier; same profile guard as `coap_get`. -/
def coap_put (profile : Option CoapProfile) (send_data : String)
    (content_format : Int) (reply : Option (String × Int))
    (prev_recv : String) (prev_code : Int) : Int × String × Int × List Cmd :=
  match profile with
  | none => (ERROR, prev_recv, prev_code, [])
  | some _ =>
    match reply with
    | none => (ERROR, prev_recv, prev_code, [Cmd.coapPut send_data content_format])
    | some (body, code) => (NBIOT_OK, body, code, [Cmd.coapPut send_data content_format])

/-- Modelled from the spec: `coap_post`, same shape as `coap_put`. -/
def coap_post (profile : Option CoapProfile) (send_data : String)
    (content_format : Int) (reply : Option (String × Int))
    (prev_recv : String) (prev_code : Int) : Int × String × Int × List Cmd :=
  match profile with
  | none => (ERROR, prev_recv, prev_code, [])
  | some _ =>
    match reply with
    | none => (ERROR, prev_recv, prev_code, [Cmd.coapPost send_data content_format])
    | some (body, code) => (NBIOT_OK, body, code, [Cmd.coapPost send_data content_format])

/-- Split a character list into the groups separated by commas. -/
def splitComma : List Char → List (List Char)
  | [] => [[]]
  | c :: rest =>
    if c = ',' then [] :: splitComma rest
    else
      match splitComma rest with
      | [] => [[c]]
      | g :: gs => (c :: g) :: gs

/-- One decimal digit, or `none` for any other character. -/
def charDigit (c : Char) : Option Nat :=
  if '0' ≤ c ∧ c ≤ '9' then some (c.toNat - '0'.toNat) else none

/-- Accumulating decimal parser over a character list. -/
def digitsToNatAux : List Char → Nat → Option Nat
  | [], acc => some acc
  | c :: cs, acc =>
    match charDigit c with
    | none => none
    | some d => digitsToNatAux cs (acc * 10 + d)

/-- Parse a non-empty all-digit character list as a decimal number. -/
def digitsToNat : List Char → Option Nat
  | [] => none
  | l => digitsToNatAux l 0

/-- Modelled from the spec: parser of the fixed-format status line the
status query returns, carrying the radio-connection flag and the network
registration state as two comma-separated decimal fields.  Any other shape
is malformed and parses to `none`. -/
def parseStatusLine (s : String) : Option (Nat × Nat) :=
  match splitComma s.data with
  | [a, b] =>
    match digitsToNat a, digitsToNat b with
    | some x, some y => some (x, y)
    | _, _ => none
  | _ => none

/-- Modelled from the spec: `get_connection_status` issues a status query
and parses the fixed-format status line; on malformed reply (or channel
failure, `reply = none`) it returns `ERROR` and leaves the output
parameters `prev_connected`/`prev_reg` unchanged.
Returns (result, connected, reg_status, commands sent). -/
def get_connection_status (reply : Option String) (prev_connected : Int)
    (prev_reg : Int) : Int × Int × Int × List Cmd :=
  match reply with
  | none => (ERROR, prev_connected, prev_reg, [Cmd.statusQuery])
  | some s =>
    match parseStatusLine s with
    | none => (ERROR, prev_connected, prev_reg, [Cmd.statusQuery])
    | some (c, r) => (NBIOT_OK, (c : Int), (r : Int), [Cmd.statusQuery])

/-- Modelled from the spec: a single idempotent AT feature toggle
(`AT+FEATURE=0|1`); the channel double either accepts the toggle
(`NBIOT_OK`) or rejects/garbles it (`ERROR`). -/
def at_toggle (feature : String) (enabled : Bool) (accepted : Bool) : Int × List Cmd :=
  (if accepted then NBIOT_OK else ERROR, [Cmd.toggle feature enabled])

/-- Modelled from the spec: `enable_autoconnect` is one AT toggle. -/
def enable_autoconnect (accepted : Bool) : Int × List Cmd :=
  at_toggle "AUTOCONNECT" true accepted

/-- Modelled from the spec: `enable_power_save_mode` is one AT toggle. -/
def enable_power_save_mode (accepted : Bool) : Int × List Cmd :=
  at_toggle "PSM" true accepted

/-- Modelled from the spec: `reboot_modem` issues the power-cycle command
sequence and blocks until the modem signals ready (`ready = true`) or the
timeout elapses (`ERROR`). -/
def reboot_modem (ready : Bool) : Int × List Cmd :=
  (if ready then NBIOT_OK else ERROR, [Cmd.rebootSeq])

/-- Modelled from the spec: the ModemFacade wraps each channel-using
operation with the single driver-identity guard; when the stored driver is
not a known driver it returns `DRIVER_UNKNOWN` and never contacts the
channel. -/
def facade_reboot_modem (driver : Nat) (ready : Bool) : Int × List Cmd :=
  if driver = SARAN2 then reboot_modem ready else (DRIVER_UNKNOWN, [])

/-- Modelled from the spec: facade driver guard around
`enable_autoconnect`. -/
def facade_enable_autoconnect (driver : Nat) (accepted : Bool) : Int × List Cmd :=
  if driver = SARAN2 then enable_autoconnect accepted else (DRIVER_UNKNOWN, [])

/-- Modelled from the spec: facade driver guard around
`enable_power_save_mode`. -/
def facade_enable_power_save_mode (driver : Nat) (accepted : Bool) : Int × List Cmd :=
  if driver = SARAN2 then enable_power_save_mode accepted else (DRIVER_UNKNOWN, [])

/-- Modelled from the spec: facade driver guard around
`get_connection_status`; output parameters stay unchanged on the guard
path. -/
def facade_get_connection_status (driver : Nat) (reply : Option String)
    (prev_connected : Int) (prev_reg : Int) : Int × Int × Int × List Cmd :=
  if driver = SARAN2 then get_connection_status reply prev_connected prev_reg
  else (DRIVER_UNKNOWN, prev_connected, prev_reg, [])

/-- Modelled from the spec: facade driver guard around `set_tau_timer`. -/
def facade_set_tau_timer (driver : Nat) (unit : T3412_units) (multiples : Nat) :
    Int × List Cmd :=
  if driver = SARAN2 then set_tau_timer unit multiples else (DRIVER_UNKNOWN, [])

/-- Modelled from the spec: facade driver guard around `set_active_time`. -/
def facade_set_active_time (driver : Nat) (unit : T3324_units) (multiples : Nat) :
    Int × List Cmd :=
  if driver = SARAN2 then set_active_time unit multiples else (DRIVER_UNKNOWN, [])

/-- Modelled from the spec: facade driver guard around the
`(unit, multiples)` overload of `get_tau_timer`. -/
def facade_get_tau_timer_units (driver : Nat) (reply : Option String)
    (prev_unit : T3412_units) (prev_multiples : Nat) :
    Int × T3412_units × Nat × List Cmd :=
  if driver = SARAN2 then get_tau_timer_units reply prev_unit prev_multiples
  else (DRIVER_UNKNOWN, prev_unit, prev_multiples, [])

/-- Modelled from the spec: facade driver guard around the
`(unit, multiples)` overload of `get_active_time`. -/
def facade_get_active_time_units (driver : Nat) (reply : Option String)
    (prev_unit : T3324_units) (prev_multiples : Nat) :
    Int × T3324_units × Nat × List Cmd :=
  if driver = SARAN2 then get_active_time_units reply prev_unit prev_multiples
  else (DRIVER_UNKNOWN, prev_unit, prev_multiples, [])

/-- Modelled from the spec: facade driver guard around `configure_coap`;
the profile state stays unchanged on the guard path. -/
def facade_configure_coap (driver : Nat) (ipv4 : String) (port : Nat)
    (uri : String) (profile : Option CoapProfile) :
    Int × Option CoapProfile × List Cmd :=
  if driver = SARAN2 then configure_coap ipv4 port uri profile
  else (DRIVER_UNKNOWN, profile, [])

/-- Modelled from the spec: facade driver guard around `coap_get`. -/
def facade_coap_get (driver : Nat) (profile : Option CoapProfile)
    (reply : Option (String × Int)) (prev_recv : String) (prev_code : Int) :
    Int × String × Int × List Cmd :=
  if driver = SARAN2 then coap_get profile reply prev_recv prev_code
  else (DRIVER_UNKNOWN, prev_recv, prev_code, [])

/-- Modelled from the spec: facade driver guard around `coap_put`. -/
def facade_coap_put (driver : Nat) (profile : Option CoapProfile)
    (send_data : String) (content_format : Int) (reply : Option (String × Int))
    (prev_recv : String) (prev_code : Int) : Int × String × Int × List Cmd :=
  if driver = SARAN2 then coap_put profile send_data content_format reply prev_recv prev_code
  else (DRIVER_UNKNOWN, prev_recv, prev_code, [])

theorem encodeT3412_ok (u : T3412_units) (c m : Nat) (hc : T3412_units.code u = some c)
    (hm : m ≤ 31) : encodeT3412 u m = Except.ok (c * 32 + m) := by
  unfold encodeT3412
  rw [hc]
  simp [Nat.not_lt.2 hm]

theorem encodeT3324_ok (u : T3324_units) (c m : Nat) (hc : T3324_units.code u = some c)
    (hm : m ≤ 31) : encodeT3324 u m = Except.ok (c * 32 + m) := by
  unfold encodeT3324
  rw [hc]
  simp [Nat.not_lt.2 hm]

theorem decodeT3412_mul (c m : Nat) (hm : m ≤ 31) :
    decodeT3412 (c * 32 + m) = (T3412_units.ofCode c, m) := by
  unfold decodeT3412
  have h1 : (c * 32 + m) / 32 = c := by omega
  have h2 : (c * 32 + m) % 32 = m := by omega
  rw [h1, h2]

theorem decodeT3324_mul (c m : Nat) (hm : m ≤ 31) :
    decodeT3324 (c * 32 + m) = (T3324_units.ofCode c, m) := by
  unfold decodeT3324
  have h1 : (c * 32 + m) / 32 = c := by omega
  have h2 : (c * 32 + m) % 32 = m := by omega
  rw [h1, h2]

theorem t3412_code_spec (u : T3412_units) (h : u ≠ T3412_units.INVALID) :
    ∃ c, T3412_units.code u = some c ∧ c < 8 ∧ T3412_units.ofCode c = u := by
  cases u <;> first
    | exact absurd rfl h
    | exact ⟨_, rfl, by omega, rfl⟩

theorem t3324_code_spec (u : T3324_units) (h : u ≠ T3324_units.INVALID) :
    ∃ c, T3324_units.code u = some c ∧ c < 8 ∧ T3324_units.ofCode c = u := by
  cases u <;> first
    | exact absurd rfl h
    | exact ⟨_, rfl, by omega, rfl⟩

theorem toBin_concat : ∀ c < 8, ∀ m < 32, toBin 8 (c * 32 + m) = toBin 3 c ++ toBin 5 m := by
  decide

/-- C1: for every `multiples` in [0,31] and every valid (non-`INVALID`)
unit, decoding the octet produced by `encode(unit, multiples)` yields
exactly `(unit, multiples)`, independently for the T3412 table and the
T3324 table. -/
theorem timer_codec_roundtrip :
    (∀ (u : T3412_units) (m : Nat), u ≠ T3412_units.INVALID → m ≤ 31 →
      Except.map decodeT3412 (encodeT3412 u m) = Except.ok (u, m)) ∧
    (∀ (u : T3324_units) (m : Nat), u ≠ T3324_units.INVALID → m ≤ 31 →
      Except.map decodeT3324 (encodeT3324 u m) = Except.ok (u, m)) := by
  constructor
  · intro u m hu hm
    obtain ⟨c, hc, _, hback⟩ := t3412_code_spec u hu
    rw [encodeT3412_ok u c m hc hm]
    simp [Except.map, decodeT3412_mul c m hm, hback]
  · intro u m hu hm
    obtain ⟨c, hc, _, hback⟩ := t3324_code_spec u hu
    rw [encodeT3324_ok u c m hc hm]
    simp [Except.map, decodeT3324_mul c m hm, hback]

/-- Witness for C1: the round trip at `(MIN_10, 5)` and `(MIN_6, 3)`. -/
theorem timer_codec_roundtrip_witness :
    Except.map decodeT3412 (encodeT3412 T3412_units.MIN_10 5) =
      Except.ok (T3412_units.MIN_10, 5) ∧
    Except.map decodeT3324 (encodeT3324 T3324_units.MIN_6 3) =
      Except.ok (T3324_units.MIN_6, 3) :=
  ⟨timer_codec_roundtrip.1 T3412_units.MIN_10 5 (by decide) (by decide),
   timer_codec_roundtrip.2 T3324_units.MIN_6 3 (by decide) (by decide)⟩

/-- C2: the encoded 8-bit value is the 3-bit unit code in the high bits
concatenated with the 5-bit multiples in the low bits, rendered as an
8-character `'0'`/`'1'` string most-significant bit first; in particular
`encode(T3412_units::MIN_10, 5) = "00000101"` and
`encode(T3324_units::MIN_6, 3) = "01000011"`. -/
theorem encode_bit_layout :
    (∀ c < 8, ∀ m < 32, toBin 8 (c * 32 + m) = toBin 3 c ++ toBin 5 m) ∧
    (∀ (u : T3412_units) (c m : Nat), T3412_units.code u = some c → m ≤ 31 →
      encodeT3412Bits u m = Except.ok (toBin 3 c ++ toBin 5 m)) ∧
    (∀ (u : T3324_units) (c m : Nat), T3324_units.code u = some c → m ≤ 31 →
      encodeT3324Bits u m = Except.ok (toBin 3 c ++ toBin 5 m)) ∧
    encodeT3412Bits T3412_units.MIN_10 5 = Except.ok "00000101" ∧
    encodeT3324Bits T3324_units.MIN_6 3 = Except.ok "01000011" := by
  refine ⟨toBin_concat, ?_, ?_, rfl, rfl⟩
  · intro u c m hc hm
    have hclt : c < 8 := by
      cases u <;> simp [T3412_units.code] at hc <;> omega
    unfold encodeT3412Bits
    rw [encodeT3412_ok u c m hc hm]
    simp [Except.map, toBin_concat c hclt m (by omega)]
  · intro u c m hc hm
    have hclt : c < 8 := by
      cases u <;> simp [T3324_units.code] at hc <;> omega
    unfold encodeT3324Bits
    rw [encodeT3324_ok u c m hc hm]
    simp [Except.map, toBin_concat c hclt m (by omega)]

/-- Witness for C2: layout at `c = 2`, `m = 3` and the two concrete
encodings. -/
theorem encode_bit_layout_witness :
    toBin 8 (2 * 32 + 3) = toBin 3 2 ++ toBin 5 3 ∧
    encodeT3324Bits T3324_units.MIN_6 3 = Except.ok (toBin 3 2 ++ toBin 5 3) :=
  ⟨encode_bit_layout.1 2 (by decide) 3 (by decide),
   encode_bit_layout.2.2.1 T3324_units.MIN_6 2 3 (by decide) (by decide)⟩

set_option maxRecDepth 4000 in
/-- C3: decode is total (it returns a value on every 8-bit input, never an
error), splitting the high 3 bits as the unit code and the low 5 bits as
multiples; `decode("11111111") = (DEACT, 31)` under both tables; no T3412
octet decodes to `INVALID`, while the four 3-bit codes missing from the
T3324 table decode to `INVALID` with the multiples still extracted. -/
theorem decode_total_split :
    (∀ octet < 256, decodeT3412 octet = (T3412_units.ofCode (octet / 32), octet % 32) ∧
      decodeT3324 octet = (T3324_units.ofCode (octet / 32), octet % 32)) ∧
    decodeT3412String "11111111" = (T3412_units.DEACT, 31) ∧
    decodeT3324String "11111111" = (T3324_units.DEACT, 31) ∧
    (∀ octet < 256, (decodeT3412 octet).1 ≠ T3412_units.INVALID) ∧
    (∀ c, 3 ≤ c → c ≤ 6 → ∀ m ≤ 31, decodeT3324 (c * 32 + m) = (T3324_units.INVALID, m)) := by
  refine ⟨fun o _ => ⟨rfl, rfl⟩, by decide, by decide, by decide, ?_⟩
  intro c h3 h6 m hm
  rw [decodeT3324_mul c m hm]
  interval_cases c <;> rfl

/-- Witness for C3: the split law at octet 255 and the `INVALID` result at
code 3 (octet 96). -/
theorem decode_total_split_witness :
    decodeT3412 255 = (T3412_units.ofCode (255 / 32), 255 % 32) ∧
    decodeT3324 (3 * 32 + 0) = (T3324_units.INVALID, 0) :=
  ⟨(decode_total_split.1 255 (by decide)).1,
   decode_total_split.2.2.2.2 3 (by decide) (by decide) 0 (by decide)⟩

/-- C4: encode fails with `EXCEEDS_MAX_VALUE` for every valid unit whenever
`multiples > 31`, and fails with `INVALID_UNIT_VALUE` whenever the unit is
the `INVALID` sentinel (the only unit of the enumeration with no wire
form); in particular `encode(unit, 32)` fails with `EXCEEDS_MAX_VALUE` and
`encode(INVALID, 0)` fails with `INVALID_UNIT_VALUE`. -/
theorem encode_error_codes :
    (∀ (u : T3412_units) (m : Nat), u ≠ T3412_units.INVALID → 31 < m →
      encodeT3412 u m = Except.error EXCEEDS_MAX_VALUE) ∧
    (∀ m : Nat, encodeT3412 T3412_units.INVALID m = Except.error INVALID_UNIT_VALUE) ∧
    (∀ (u : T3324_units) (m : Nat), u ≠ T3324_units.INVALID → 31 < m →
      encodeT3324 u m = Except.error EXCEEDS_MAX_VALUE) ∧
    (∀ m : Nat, encodeT3324 T3324_units.INVALID m = Except.error INVALID_UNIT_VALUE) := by
  refine ⟨?_, fun m => rfl, ?_, fun m => rfl⟩
  · intro u m hu hm
    obtain ⟨c, hc, _, _⟩ := t3412_code_spec u hu
    unfold encodeT3412
    rw [hc]
    simp [hm]
  · intro u m hu hm
    obtain ⟨c, hc, _, _⟩ := t3324_code_spec u hu
    unfold encodeT3324
    rw [hc]
    simp [hm]

/-- Witness for C4: `encode(HR_1, 32)` and `encode(MIN_1, 32)` exceed the
maximum, `encode(INVALID, 0)` is an invalid unit. -/
theorem encode_error_codes_witness :
    encodeT3412 T3412_units.HR_1 32 = Except.error EXCEEDS_MAX_VALUE ∧
    encodeT3324 T3324_units.MIN_1 32 = Except.error EXCEEDS_MAX_VALUE ∧
    encodeT3412 T3412_units.INVALID 0 = Except.error INVALID_UNIT_VALUE ∧
    encodeT3324 T3324_units.INVALID 0 = Except.error INVALID_UNIT_VALUE :=
  ⟨encode_error_codes.1 T3412_units.HR_1 32 (by decide) (by decide),
   encode_error_codes.2.2.1 T3324_units.MIN_1 32 (by decide) (by decide),
   encode_error_codes.2.1 0,
   encode_error_codes.2.2.2 0⟩

/-- C5: whenever encoding fails, `set_tau_timer` and `set_active_time`
return the encode error code with no channel interaction; only on encode
success do they transmit the encoded octet (as its 8-character bit string)
to the modem. -/
theorem set_timer_fail_fast :
    (∀ (u : T3412_units) (m : Nat) (e : Int), encodeT3412 u m = Except.error e →
      set_tau_timer u m = (e, [])) ∧
    (∀ (u : T3412_units) (m o : Nat), encodeT3412 u m = Except.ok o →
      set_tau_timer u m = (NBIOT_OK, [Cmd.psmTau (toBin 8 o)])) ∧
    (∀ (u : T3324_units) (m : Nat) (e : Int), encodeT3324 u m = Except.error e →
      set_active_time u m = (e, [])) ∧
    (∀ (u : T3324_units) (m o : Nat), encodeT3324 u m = Except.ok o →
      set_active_time u m = (NBIOT_OK, [Cmd.psmActive (toBin 8 o)])) := by
  refine ⟨?_, ?_, ?_, ?_⟩ <;> intro u m x h <;>
    simp [set_tau_timer, set_active_time, h]

/-- Witness for C5: a failing encode propagates its code with no channel
command; a succeeding encode transmits the octet. -/
theorem set_timer_fail_fast_witness :
    set_tau_timer T3412_units.INVALID 0 = (INVALID_UNIT_VALUE, []) ∧
    set_active_time T3324_units.MIN_6 32 = (EXCEEDS_MAX_VALUE, []) ∧
    set_tau_timer T3412_units.MIN_10 5 = (NBIOT_OK, [Cmd.psmTau (toBin 8 5)]) :=
  ⟨set_timer_fail_fast.1 T3412_units.INVALID 0 INVALID_UNIT_VALUE rfl,
   set_timer_fail_fast.2.2.1 T3324_units.MIN_6 32 EXCEEDS_MAX_VALUE rfl,
   set_timer_fail_fast.2.1 T3412_units.MIN_10 5 5 rfl⟩

/-- C6: `configure_coap` validates the URI length locally: a URI longer
than 200 characters fails with the exceeds-bounds code before any channel
interaction (zero commands sent, profile unchanged); otherwise it programs
CoAP profile 0 with the given server address, port and URI, replacing any
previous profile. -/
theorem configure_coap_bounds :
    (∀ (ipv4 : String) (port : Nat) (uri : String) (st : Option CoapProfile),
      200 < uri.length →
      configure_coap ipv4 port uri st = (EXCEEDS_MAX_VALUE, st, [])) ∧
    (∀ (ipv4 : String) (port : Nat) (uri : String) (st : Option CoapProfile),
      uri.length ≤ 200 →
      configure_coap ipv4 port uri st =
        (NBIOT_OK, some ⟨ipv4, port, uri⟩, [Cmd.coapConfig ipv4 port uri])) := by
  constructor
  · intro ipv4 port uri st h
    simp [configure_coap, h]
  · intro ipv4 port uri st h
    simp [configure_coap, Nat.not_lt.2 h]

set_option maxRecDepth 8000 in
/-- Witness for C6: a 201-character URI is rejected with no channel
command and an untouched profile; a short URI programs profile 0. -/
theorem configure_coap_bounds_witness :
    configure_coap "168.134.102.18" 5683 (String.mk (List.replicate 201 'a')) none =
      (EXCEEDS_MAX_VALUE, none, []) ∧
    configure_coap "168.134.102.18" 5683 "/sink" none =
      (NBIOT_OK, some ⟨"168.134.102.18", 5683, "/sink"⟩,
        [Cmd.coapConfig "168.134.102.18" 5683 "/sink"]) :=
  ⟨configure_coap_bounds.1 "168.134.102.18" 5683 (String.mk (List.replicate 201 'a')) none
     (by decide),
   configure_coap_bounds.2 "168.134.102.18" 5683 "/sink" none (by decide)⟩

/-- C7: with no configured profile (the state every session starts in and
the state before any successful `configure_coap` call), every CoAP request
operation returns `ERROR` without sending any channel command, leaving the
output parameters untouched. -/
theorem coap_requires_profile :
    initCoapProfile = none ∧
    (∀ (reply : Option (String × Int)) (pr : String) (pc : Int),
      coap_get none reply pr pc = (ERROR, pr, pc, []) ∧
      coap_delete none reply pr pc = (ERROR, pr, pc, [])) ∧
    (∀ (sd : String) (cf : Int) (reply : Option (String × Int)) (pr : String) (pc : Int),
      coap_put none sd cf reply pr pc = (ERROR, pr, pc, []) ∧
      coap_post none sd cf reply pr pc = (ERROR, pr, pc, [])) :=
  ⟨rfl, fun _ _ _ => ⟨rfl, rfl⟩, fun _ _ _ _ _ => ⟨rfl, rfl⟩⟩

/-- C8: the `(unit, multiples)` overloads of `get_tau_timer` and
`get_active_time` return `NBIOT_OK` whenever the channel interaction
succeeded, even when decoding the modem's bit string yields the `INVALID`
unit: the table mismatch is signalled only through the output value. -/
theorem get_timer_decode_invalid_ok :
    (∀ (s : String) (pu : T3412_units) (pm : Nat),
      (get_tau_timer_units (some s) pu pm).1 = NBIOT_OK) ∧
    (∀ (s : String) (pu : T3324_units) (pm : Nat),
      (get_active_time_units (some s) pu pm).1 = NBIOT_OK) ∧
    (decodeT3324String "01100000").1 = T3324_units.INVALID ∧
    get_active_time_units (some "01100000") T3324_units.SEC_2 7 =
      (NBIOT_OK, T3324_units.INVALID, 0, [Cmd.psmActiveQuery]) :=
  ⟨fun _ _ _ => rfl, fun _ _ _ => rfl, by decide, by decide⟩

/-- C9: `get_connection_status` on a malformed status reply returns
`ERROR` and leaves both output parameters unchanged; more generally, each
modelled output-bearing operation leaves its output parameters unchanged
whenever its result is not `NBIOT_OK`. -/
theorem outputs_only_on_ok :
    (∀ (s : String) (c r : Int), parseStatusLine s = none →
      get_connection_status (some s) c r = (ERROR, c, r, [Cmd.statusQuery])) ∧
    (∀ (reply : Option String) (c r : Int),
      (get_connection_status reply c r).1 ≠ NBIOT_OK →
      (get_connection_status reply c r).2.1 = c ∧
      (get_connection_status reply c r).2.2.1 = r) ∧
    (∀ (reply : Option String) (pu : T3412_units) (pm : Nat),
      (get_tau_timer_units reply pu pm).1 ≠ NBIOT_OK →
      (get_tau_timer_units reply pu pm).2.1 = pu ∧
      (get_tau_timer_units reply pu pm).2.2.1 = pm) ∧
    (∀ (reply : Option String) (pu : T3324_units) (pm : Nat),
      (get_active_time_units reply pu pm).1 ≠ NBIOT_OK →
      (get_active_time_units reply pu pm).2.1 = pu ∧
      (get_active_time_units reply pu pm).2.2.1 = pm) ∧
    (∀ (profile : Option CoapProfile) (reply : Option (String × Int))
      (pr : String) (pc : Int),
      (coap_get profile reply pr pc).1 ≠ NBIOT_OK →
      (coap_get profile reply pr pc).2.1 = pr ∧
      (coap_get profile reply pr pc).2.2.1 = pc) := by
  refine ⟨?_, ?_, ?_, ?_, ?_⟩
  · intro s c r h
    simp [get_connection_status, h]
  · intro reply c r h
    match reply with
    | none => exact ⟨rfl, rfl⟩
    | some s =>
      match hp : parseStatusLine s with
      | none => simp [get_connection_status, hp]
      | some (x, y) => exact absurd (by simp [get_connection_status, hp]) h
  · intro reply pu pm h
    match reply with
    | none => exact ⟨rfl, rfl⟩
    | some s => exact absurd rfl h
  · intro reply pu pm h
    match reply with
    | none => exact ⟨rfl, rfl⟩
    | some s => exact absurd rfl h
  · intro profile reply pr pc h
    match profile with
    | none => exact ⟨rfl, rfl⟩
    | some p =>
      match reply with
      | none => exact ⟨rfl, rfl⟩
      | some (body, code) => exact absurd rfl h

/-- Witness for C9: the malformed reply `"banana"` yields `ERROR` with
both outputs untouched, and the frame law applied to a channel failure. -/
theorem outputs_only_on_ok_witness :
    get_connection_status (some "banana") 7 8 = (ERROR, 7, 8, [Cmd.statusQuery]) ∧
    ((get_connection_status none 7 8).2.1 = 7 ∧ (get_connection_status none 7 8).2.2.1 = 8) :=
  ⟨outputs_only_on_ok.1 "banana" 7 8 (by decide),
   outputs_only_on_ok.2.1 none 7 8 (by decide)⟩

/-- C10: the public result codes have the stable numeric values
`NBIOT_OK = 0`, `DRIVER_UNKNOWN = 60` (not 40), `EXCEEDS_MAX_VALUE = 61`,
`INVALID_UNIT_VALUE = 62`, and with the stored driver identity
`UNDEFINED` every modelled channel-using public operation returns
`DRIVER_UNKNOWN` without sending any channel command. -/
theorem result_codes_and_driver_guard :
    NBIOT_OK = 0 ∧ DRIVER_UNKNOWN = 60 ∧ EXCEEDS_MAX_VALUE = 61 ∧
    INVALID_UNIT_VALUE = 62 ∧ DRIVER_UNKNOWN ≠ 40 ∧
    (∀ ready, facade_reboot_modem UNDEFINED ready = (DRIVER_UNKNOWN, [])) ∧
    (∀ acc, facade_enable_autoconnect UNDEFINED acc = (DRIVER_UNKNOWN, []) ∧
      facade_enable_power_save_mode UNDEFINED acc = (DRIVER_UNKNOWN, [])) ∧
    (∀ (reply : Option String) (c r : Int),
      facade_get_connection_status UNDEFINED reply c r = (DRIVER_UNKNOWN, c, r, [])) ∧
    (∀ (u : T3412_units) (m : Nat),
      facade_set_tau_timer UNDEFINED u m = (DRIVER_UNKNOWN, [])) ∧
    (∀ (u : T3324_units) (m : Nat),
      facade_set_active_time UNDEFINED u m = (DRIVER_UNKNOWN, [])) ∧
    (∀ (reply : Option String) (pu : T3412_units) (pm : Nat),
      facade_get_tau_timer_units UNDEFINED reply pu pm = (DRIVER_UNKNOWN, pu, pm, [])) ∧
    (∀ (reply : Option String) (pu : T3324_units) (pm : Nat),
      facade_get_active_time_units UNDEFINED reply pu pm = (DRIVER_UNKNOWN, pu, pm, [])) ∧
    (∀ (ipv4 : String) (port : Nat) (uri : String) (st : Option CoapProfile),
      facade_configure_coap UNDEFINED ipv4 port uri st = (DRIVER_UNKNOWN, st, [])) ∧
    (∀ (profile : Option CoapProfile) (reply : Option (String × Int))
      (pr : String) (pc : Int),
      facade_coap_get UNDEFINED profile reply pr pc = (DRIVER_UNKNOWN, pr, pc, [])) ∧
    (∀ (profile : Option CoapProfile) (sd : String) (cf : Int)
      (reply : Option (String × Int)) (pr : String) (pc : Int),
      facade_coap_put UNDEFINED profile sd cf reply pr pc = (DRIVER_UNKNOWN, pr, pc, [])) :=
  ⟨rfl, rfl, rfl, rfl, by decide, fun _ => rfl, fun _ => ⟨rfl, rfl⟩,
   fun _ _ _ => rfl, fun _ _ => rfl, fun _ _ => rfl, fun _ _ _ => rfl,
   fun _ _ _ => rfl, fun _ _ _ _ => rfl, fun _ _ _ _ => rfl,
   fun _ _ _ _ _ _ => rfl⟩
